import Mathlib

/-!
Verification of the LibraLink user-actions layer.

The repository contains two variants of the same server-action module:
`src/lib/actions/user-actions.ts` (namespace `V1` below: hard delete,
string-interpolated `getUsers` query, stats over all rows) and
`src/unnamed/part_001` (namespace `V2`: soft delete, parameterized
`getUsers` query, stats excluding inactive rows).  All other operations
are textually identical between the two variants and are embedded once,
in namespace `LibraLink`.

The database is modelled as a list of user rows; each SQL statement is
embedded by its semantics on that list (filter / map / append), and,
where a claim is about the SQL *text*, by a string-builder translated
from the code that assembles the query.
-/

namespace LibraLink

/-- Roles of the `role` column, from `@/lib/db` (spec §3). -/
inductive UserRole where
  | student | faculty | librarian | admin
deriving DecidableEq, Repr

/-- Statuses of the `status` column, from `@/lib/db` (spec §3). -/
inductive UserStatus where
  | active | suspended | inactive
deriving DecidableEq, Repr

/-- A row of the `users` table (spec §3).  `created_at` is modelled as a
natural timestamp; nullable columns are `Option`s. -/
structure UserRow where
  id : String
  email : String
  password_hash : String
  full_name : String
  role : UserRole
  status : UserStatus
  university_id : Option String
  university_name : Option String
  department : Option String
  year_level : Option String
  course : Option String
  phone : Option String
  avatar_url : Option String
  created_at : Nat
deriving DecidableEq, Repr

/-- The `users` table. -/
abbrev DB := List UserRow

/-- The identity carried by a session, as consumed by the actions
(`user.id` for self-service operations, the role for the role gate). -/
structure SessionUser where
  id : String
  role : UserRole
deriving DecidableEq, Repr

/-- A session, as `getSession()` resolves it: `{ user | null }` (spec §6). -/
abbrev Session := Option SessionUser

/-- The error thrown by the role gate. -/
inductive AuthError where
  | unauthorized
deriving DecidableEq, Repr

/-- Modelled from the spec: `requireRole` of `@/lib/auth` is not among the
sources; per spec §4.1/§6 it verifies that a caller exists in the current
session and holds one of the allowed roles, and fails with an Unauthorized
error (a rejected promise) otherwise, before any data access. -/
def requireRole (allowed : List UserRole) (s : Session) : Except AuthError Unit :=
  match s with
  | none => .error .unauthorized
  | some u => if u.role ∈ allowed then .ok () else .error .unauthorized

/-- Whether the session would pass `requireRole(["admin"])`. -/
def isAdminSession (s : Session) : Bool :=
  match s with
  | none => false
  | some u => u.role == .admin

/-- JavaScript truthiness of an optional string argument (`if (search)`,
`if (data.full_name)`): `undefined` and the empty string are falsy. -/
def truthyStr (o : Option String) : Option String :=
  match o with
  | none => none
  | some s => if s.isEmpty then none else some s

/-- Lowercasing (`LOWER` / `.toLowerCase()`) on the character-list view of a
string. -/
def lowerChars (s : String) : List Char :=
  s.toList.map Char.toLower

/-- Lowercasing (`.toLowerCase()`) as a string-to-string map. -/
def strLower (s : String) : String :=
  String.mk (lowerChars s)

/-- SQL `LIKE` pattern matching: `%` matches any sequence, `_` any single
character, any other pattern character matches itself. -/
def sqlLike (p t : List Char) : Bool :=
  match p, t with
  | [], t => t.isEmpty
  | c :: p, t =>
    if c = '%' then
      sqlLike p t ||
        (match t with
         | [] => false
         | _ :: t' => sqlLike (c :: p) t')
    else
      match t with
      | [] => false
      | d :: t' => (if c = '_' then true else decide (c = d)) && sqlLike p t'
termination_by (t.length, p.length)

/-- Whether `t` begins with `s` (character-by-character). -/
def beginsWith (t s : List Char) : Bool :=
  match t, s with
  | _, [] => true
  | [], _ :: _ => false
  | d :: t, c :: s => decide (c = d) && beginsWith t s

/-- Whether `s` occurs as a contiguous substring of `t`. -/
def containsSub (t s : List Char) : Bool :=
  beginsWith t s ||
    (match t with
     | [] => false
     | _ :: t' => containsSub t' s)

/-- A `LIKE` condition applied to a possibly `NULL` column: in SQL,
`LOWER(NULL) LIKE p` is `NULL`, which does not satisfy the condition. -/
def likeOpt (p : List Char) (col : Option String) : Bool :=
  match col with
  | none => false
  | some t => sqlLike p (lowerChars t)

/-- The `LIKE` pattern built by both `getUsers` variants from a search
string: `'%' + search.toLowerCase() + '%'`. -/
def likePattern (srch : String) : List Char :=
  '%' :: lowerChars srch ++ ['%']

/-- The row predicate of the `getUsers` `WHERE` clause, common to both
variants: `status != 'inactive'`, optional `role = ρ`, optional
case-insensitive `LIKE` over `full_name`, `email`, `university_id`. -/
def rowMatches (roleArg : Option UserRole) (searchArg : Option String)
    (r : UserRow) : Bool :=
  r.status != .inactive &&
    (match roleArg with
     | some ρ => r.role == ρ
     | none => true) &&
    (match truthyStr searchArg with
     | some srch =>
       let p := likePattern srch
       likeOpt p (some r.full_name) || likeOpt p (some r.email) ||
         likeOpt p r.university_id
     | none => true)

/-- Insert a row into a list sorted by `created_at` descending. -/
def insertDesc (r : UserRow) : List UserRow → List UserRow
  | [] => [r]
  | x :: xs =>
    if x.created_at ≤ r.created_at then r :: x :: xs else x :: insertDesc r xs

/-- Sorting for `ORDER BY created_at DESC`: insertion sort, newest first. -/
def sortDesc : List UserRow → List UserRow
  | [] => []
  | x :: xs => insertDesc x (sortDesc xs)

/-- Result shape of operations that return `{ user, error }`. -/
structure UserResult where
  user : Option UserRow
  error : Option String
deriving DecidableEq, Repr

/-- Result shape of operations that return `{ error }` only. -/
structure ErrResult where
  error : Option String
deriving DecidableEq, Repr

/-- Result row of `getUserStats`. -/
structure UserStats where
  total_users : Nat
  students : Nat
  faculty : Nat
  librarians : Nat
  admins : Nat
  active_users : Nat
deriving DecidableEq, Repr

/-- Modelled from the spec: `crypto.createHash("sha256").update(p).digest("hex")`
is a node library call, not code of this repository; per spec §4.4 it is a
deterministic, non-salted one-way map from a plaintext string to a hexadecimal
digest, used identically at creation and at verification time.  The claims
depend only on both sites sharing one deterministic function, which this model
provides; the SHA-256 compression itself is not modelled. -/
def hashPassword (password : String) : String :=
  "sha256-hex:" ++ password

/-- Rendering of a role as its SQL literal. -/
def roleStr : UserRole → String
  | .student => "student"
  | .faculty => "faculty"
  | .librarian => "librarian"
  | .admin => "admin"

/-- A single-quote character, for assembling SQL literals. -/
def sq : String :=
  String.singleton (Char.ofNat 39)

/-- Semantics of `getUsers` (identical in both variants): admin gate, then
`SELECT * FROM users` filtered by `rowMatches`, ordered by `created_at`
descending.  The gate call is not inside a try/catch, so its failure
propagates to the caller. -/
def getUsers (s : Session) (roleArg : Option UserRole) (searchArg : Option String)
    (db : DB) : Except AuthError (List UserRow) :=
  match requireRole [.admin] s with
  | .error e => .error e
  | .ok _ => .ok (sortDesc (db.filter (rowMatches roleArg searchArg)))

/-- Semantics of `getUserById`: no session lookup, no role gate; first row
with the given id, or `null`.  Takes the request session only to show it is
ignored. -/
def getUserById (_s : Session) (id : String) (db : DB) : Option UserRow :=
  (db.filter (fun r => r.id == id)).head?

/-- Payload of `createUser`; optional institutional fields default to
`undefined`. -/
structure CreateData where
  email : String
  password : String
  full_name : String
  role : UserRole
  university_id : Option String := none
  university_name : Option String := none
  department : Option String := none
  year_level : Option String := none
  course : Option String := none
deriving DecidableEq, Repr

/-- The row inserted by `createUser`'s `INSERT ... RETURNING *` statement:
the listed columns from the payload (with the JS `x || null` coercion mapping
empty strings to `NULL`), `password_hash` the digest of the payload password,
and the database column defaults for `id`, `status`, `phone`, `avatar_url`
and `created_at`. -/
def newUserRow (data : CreateData) (newId : String) (now : Nat) : UserRow :=
  { id := newId
    email := data.email
    password_hash := hashPassword data.password
    full_name := data.full_name
    role := data.role
    status := .active
    university_id := truthyStr data.university_id
    university_name := truthyStr data.university_name
    department := truthyStr data.department
    year_level := truthyStr data.year_level
    course := truthyStr data.course
    phone := none
    avatar_url := none
    created_at := now }

/-- Semantics of `createUser`: admin gate (inside the try/catch, so its
failure is caught and mapped to the generic message), duplicate-email check
over all rows, then `INSERT ... RETURNING *`.  `id` and `created_at` come
from database column defaults, passed in as `newId` and `now`. -/
def createUser (s : Session) (data : CreateData) (newId : String) (now : Nat)
    (db : DB) : UserResult × DB :=
  match requireRole [.admin] s with
  | .error _ => ({ user := none, error := some "Failed to create user" }, db)
  | .ok _ =>
    if db.any (fun r => r.email == data.email) then
      ({ user := none, error := some "Email already exists" }, db)
    else
      ({ user := some (newUserRow data newId now), error := none },
       db ++ [newUserRow data newId now])

/-- Payload of `updateUser`: a partial record, absent fields `undefined`. -/
structure UpdateData where
  full_name : Option String := none
  role : Option UserRole := none
  status : Option UserStatus := none
  university_id : Option String := none
  university_name : Option String := none
  department : Option String := none
  phone : Option String := none
  avatar_url : Option String := none
  year_level : Option String := none
  course : Option String := none
deriving DecidableEq, Repr

/-- Whether at least one field of the payload is defined (the code pushes a
`key = $n` clause for every entry with `value !== undefined`). -/
def hasUpdates (d : UpdateData) : Bool :=
  d.full_name.isSome || d.role.isSome || d.status.isSome ||
    d.university_id.isSome || d.university_name.isSome || d.department.isSome ||
    d.phone.isSome || d.avatar_url.isSome || d.year_level.isSome || d.course.isSome

/-- Effect of the generated `UPDATE users SET ...` clause list on one row:
every defined field overwrites the column, absent fields are untouched. -/
def applyUpdate (d : UpdateData) (r : UserRow) : UserRow :=
  { r with
    full_name := d.full_name.getD r.full_name
    role := d.role.getD r.role
    status := d.status.getD r.status
    university_id := (d.university_id.map some).getD r.university_id
    university_name := (d.university_name.map some).getD r.university_name
    department := (d.department.map some).getD r.department
    phone := (d.phone.map some).getD r.phone
    avatar_url := (d.avatar_url.map some).getD r.avatar_url
    year_level := (d.year_level.map some).getD r.year_level
    course := (d.course.map some).getD r.course }

/-- Semantics of `updateUser`: admin gate (inside try/catch), reject an empty
clause list, else `UPDATE ... WHERE id = $n RETURNING *`; the returned entity
is `result[0]`, which is absent when no row matched. -/
def updateUser (s : Session) (id : String) (d : UpdateData) (db : DB) :
    UserResult × DB :=
  match requireRole [.admin] s with
  | .error _ => ({ user := none, error := some "Failed to update user" }, db)
  | .ok _ =>
    if hasUpdates d then
      let updated := (db.filter (fun r => r.id == id)).map (applyUpdate d)
      ({ user := updated.head?, error := none },
       db.map (fun r => if r.id == id then applyUpdate d r else r))
    else
      ({ user := none, error := some "No updates provided" }, db)

/-- Semantics of `updateUserRole`: admin gate (inside try/catch), then
`UPDATE users SET role = $1 WHERE id = $2`. -/
def updateUserRole (s : Session) (id : String) (role : UserRole) (db : DB) :
    ErrResult × DB :=
  match requireRole [.admin] s with
  | .error _ => ({ error := some "Failed to update role" }, db)
  | .ok _ =>
    ({ error := none },
     db.map (fun r => if r.id == id then { r with role := role } else r))

/-- Semantics of `updateUserStatus`: admin gate (inside try/catch), then
`UPDATE users SET status = $1 WHERE id = $2`. -/
def updateUserStatus (s : Session) (id : String) (status : UserStatus) (db : DB) :
    ErrResult × DB :=
  match requireRole [.admin] s with
  | .error _ => ({ error := some "Failed to update status" }, db)
  | .ok _ =>
    ({ error := none },
     db.map (fun r => if r.id == id then { r with status := status } else r))

/-- Payload of `updateCurrentUserProfile`. -/
structure ProfileData where
  full_name : Option String := none
  email : Option String := none
deriving DecidableEq, Repr

/-- Effect of the profile `UPDATE` clause list on one row. -/
def profilePatch (fn em : Option String) (r : UserRow) : UserRow :=
  { r with
    full_name := fn.getD r.full_name
    email := em.getD r.email }

/-- Execution of the assembled profile update:
`UPDATE users SET ... WHERE id = $n RETURNING *`. -/
def runProfileUpdate (uid : String) (fn em : Option String) (db : DB) :
    UserResult × DB :=
  let updated := (db.filter (fun r => r.id == uid)).map (profilePatch fn em)
  ({ user := updated.head?, error := none },
   db.map (fun r => if r.id == uid then profilePatch fn em r else r))

/-- Semantics of `updateCurrentUserProfile`: session user required (no role
gate); a truthy email is first checked for duplication against every other
row; an empty clause list is rejected; then the update runs on the session
user's row. -/
def updateCurrentUserProfile (s : Session) (data : ProfileData) (db : DB) :
    UserResult × DB :=
  match s with
  | none => ({ user := none, error := some "Not authenticated" }, db)
  | some u =>
    let fn := truthyStr data.full_name
    match truthyStr data.email with
    | some e =>
      if db.any (fun r => r.email == e && r.id != u.id) then
        ({ user := none, error := some "Email already in use" }, db)
      else
        runProfileUpdate u.id fn (some e) db
    | none =>
      match fn with
      | none => ({ user := none, error := some "No updates provided" }, db)
      | some _ => runProfileUpdate u.id fn none db

/-- Semantics of `updateCurrentUserPassword`: session user required (no role
gate); the stored digest of the session user's row must equal the hash of the
supplied current password, else an error and no write; on success the row's
`password_hash` is replaced by the hash of the new password. -/
def updateCurrentUserPassword (s : Session) (currentPassword newPassword : String)
    (db : DB) : ErrResult × DB :=
  match s with
  | none => ({ error := some "Not authenticated" }, db)
  | some u =>
    let currentHash := hashPassword currentPassword
    match (db.filter (fun r => r.id == u.id)).head? with
    | none => ({ error := some "Current password is incorrect" }, db)
    | some row =>
      if row.password_hash != currentHash then
        ({ error := some "Current password is incorrect" }, db)
      else
        ({ error := none },
         db.map (fun r =>
           if r.id == u.id then { r with password_hash := hashPassword newPassword }
           else r))

namespace V1

/-- The SQL text assembled by `getUsers` in `src/lib/actions/user-actions.ts`
(lines 17–26): the role and the lowercased search string are concatenated
directly into the text, and the result is passed to `sql.unsafe(query)` with
no parameter list. -/
def getUsersQuery (roleArg : Option UserRole) (searchArg : Option String) : String :=
  let q0 := "SELECT * FROM users WHERE status != " ++ sq ++ "inactive" ++ sq
  let q1 :=
    match roleArg with
    | some ρ => q0 ++ " AND role = " ++ sq ++ roleStr ρ ++ sq
    | none => q0
  let q2 :=
    match truthyStr searchArg with
    | some srch =>
      let s := strLower srch
      q1 ++ " AND (LOWER(full_name) LIKE " ++ sq ++ "%" ++ s ++ "%" ++ sq ++
        " OR LOWER(email) LIKE " ++ sq ++ "%" ++ s ++ "%" ++ sq ++
        " OR LOWER(university_id) LIKE " ++ sq ++ "%" ++ s ++ "%" ++ sq ++ ")"
    | none => q1
  q2 ++ " ORDER BY created_at DESC"

/-- Semantics of `deleteUser` in `src/lib/actions/user-actions.ts`: admin
gate (inside try/catch), then a hard `DELETE FROM users WHERE id = $1`. -/
def deleteUser (s : Session) (id : String) (db : DB) : ErrResult × DB :=
  match requireRole [.admin] s with
  | .error _ => ({ error := some "Failed to delete user" }, db)
  | .ok _ => ({ error := none }, db.filter (fun r => r.id != id))

/-- Semantics of `getUserStats` in `src/lib/actions/user-actions.ts`: no
session lookup, no role gate; counts over all rows, with only `active_users`
filtered.  Takes the request session only to show it is ignored. -/
def getUserStats (_s : Session) (db : DB) : UserStats :=
  { total_users := db.length
    students := db.countP (fun r => r.role == .student)
    faculty := db.countP (fun r => r.role == .faculty)
    librarians := db.countP (fun r => r.role == .librarian)
    admins := db.countP (fun r => r.role == .admin)
    active_users := db.countP (fun r => r.status == .active) }

end V1

namespace V2

/-- The SQL text and positional parameter list assembled by `getUsers` in
`src/unnamed/part_001` (lines 17–34): untrusted values go only into the
parameter list; the text depends only on which arguments are present. -/
def getUsersQuery (roleArg : Option UserRole) (searchArg : Option String) :
    String × List String :=
  let conds0 : List String := ["status != " ++ sq ++ "inactive" ++ sq]
  let vals0 : List String := []
  let step1 :=
    match roleArg with
    | some ρ =>
      (conds0 ++ ["role = $" ++ toString (vals0.length + 1)], vals0 ++ [roleStr ρ])
    | none => (conds0, vals0)
  let step2 :=
    match truthyStr searchArg with
    | some srch =>
      let pat := "%" ++ strLower srch ++ "%"
      let n := step1.2.length
      (step1.1 ++
        ["(LOWER(full_name) LIKE $" ++ toString (n + 1) ++
          " OR LOWER(email) LIKE $" ++ toString (n + 2) ++
          " OR LOWER(university_id) LIKE $" ++ toString (n + 3) ++ ")"],
       step1.2 ++ [pat, pat, pat])
    | none => step1
  ("SELECT * FROM users WHERE " ++ String.intercalate " AND " step2.1 ++
    " ORDER BY created_at DESC", step2.2)

/-- Semantics of `deleteUser` in `src/unnamed/part_001`: admin gate (inside
try/catch), then the soft delete
`UPDATE users SET status = 'inactive' WHERE id = $1`. -/
def deleteUser (s : Session) (id : String) (db : DB) : ErrResult × DB :=
  match requireRole [.admin] s with
  | .error _ => ({ error := some "Failed to delete user" }, db)
  | .ok _ =>
    ({ error := none },
     db.map (fun r => if r.id == id then { r with status := .inactive } else r))

/-- Semantics of `getUserStats` in `src/unnamed/part_001`: no session lookup,
no role gate; every count except `active_users` excludes inactive rows.
Takes the request session only to show it is ignored. -/
def getUserStats (_s : Session) (db : DB) : UserStats :=
  { total_users := db.countP (fun r => r.status != .inactive)
    students := db.countP (fun r => r.role == .student && r.status != .inactive)
    faculty := db.countP (fun r => r.role == .faculty && r.status != .inactive)
    librarians := db.countP (fun r => r.role == .librarian && r.status != .inactive)
    admins := db.countP (fun r => r.role == .admin && r.status != .inactive)
    active_users := db.countP (fun r => r.status == .active) }

end V2

/-- Whether a string is free of the SQL `LIKE` wildcard characters. -/
def noWild (s : String) : Bool :=
  s.toList.all fun c => c != '%' && c != '_'

/-- Character-list version of `noWild`. -/
def noWildL (l : List Char) : Bool :=
  l.all fun c => c != '%' && c != '_'

/-- Sample admin session for concrete evaluations. -/
def sAdmin : Session :=
  some { id := "admin-1", role := .admin }

/-- Sample non-admin (student) session for concrete evaluations. -/
def sStudent : Session :=
  some { id := "stu-1", role := .student }

/-- Sample row: an active student named "alice smith". -/
def aliceRow : UserRow :=
  { id := "u-alice"
    email := "alice@example.edu"
    password_hash := hashPassword "pw-alice"
    full_name := "alice smith"
    role := .student
    status := .active
    university_id := some "2021-0001"
    university_name := none
    department := none
    year_level := none
    course := none
    phone := none
    avatar_url := none
    created_at := 5 }

/-- Sample row: the soft-deleted (inactive) version of `aliceRow`. -/
def aliceInactive : UserRow :=
  { aliceRow with status := .inactive }

/-- Sample row: an active faculty member. -/
def bobRow : UserRow :=
  { id := "u-bob"
    email := "bob@example.edu"
    password_hash := hashPassword "pw-bob"
    full_name := "Bob Cruz"
    role := .faculty
    status := .active
    university_id := none
    university_name := none
    department := none
    year_level := none
    course := none
    phone := none
    avatar_url := none
    created_at := 9 }

/-- Sample session belonging to `aliceRow`. -/
def sAlice : Session :=
  some { id := "u-alice", role := .student }

/-- Sample creation payload. -/
def carolData : CreateData :=
  { email := "carol@example.edu"
    password := "pw-carol"
    full_name := "Carol Diaz"
    role := .librarian }

end LibraLink

namespace LibraLink

/-! ### Helper lemmas -/

theorem requireRole_admin_fail {s : Session} (h : isAdminSession s = false) :
    requireRole [.admin] s = .error .unauthorized := by
  cases s with
  | none => rfl
  | some u =>
    simp only [isAdminSession, beq_eq_false_iff_ne, ne_eq] at h
    simp [requireRole, h]

theorem requireRole_admin_ok {s : Session} (h : isAdminSession s = true) :
    requireRole [.admin] s = .ok () := by
  cases s with
  | none => simp [isAdminSession] at h
  | some u =>
    simp only [isAdminSession, beq_iff_eq] at h
    simp [requireRole, h]

theorem map_guard_id {f : UserRow → UserRow} {i : String} {l : List UserRow}
    (h : ∀ x ∈ l, x.id ≠ i) :
    l.map (fun r => if r.id == i then f r else r) = l := by
  induction l with
  | nil => rfl
  | cons x xs ih =>
    have hx : ¬((x.id == i) = true) := by
      simpa using h x (by simp)
    rw [List.map_cons, if_neg hx, ih fun y hy => h y (List.mem_cons_of_mem _ hy)]

theorem map_guard_id_prop {f : UserRow → UserRow} {i : String} {l : List UserRow}
    (h : ∀ x ∈ l, x.id ≠ i) :
    (l.map fun r => if r.id = i then f r else r) = l := by
  induction l with
  | nil => rfl
  | cons x xs ih =>
    rw [List.map_cons, if_neg (h x (List.mem_cons_self x xs)),
      ih fun y hy => h y (List.mem_cons_of_mem _ hy)]

theorem mem_insertDesc {a r : UserRow} {l : List UserRow} :
    a ∈ insertDesc r l ↔ a = r ∨ a ∈ l := by
  induction l with
  | nil => simp [insertDesc]
  | cons x xs ih =>
    simp only [insertDesc]
    split
    · simp
    · simp only [List.mem_cons, ih]
      tauto

theorem insertDesc_perm (r : UserRow) (l : List UserRow) :
    List.Perm (insertDesc r l) (r :: l) := by
  induction l with
  | nil => exact List.Perm.refl _
  | cons x xs ih =>
    simp only [insertDesc]
    split
    · exact List.Perm.refl _
    · exact (ih.cons x).trans (List.Perm.swap r x xs)

theorem sortDesc_perm (l : List UserRow) : List.Perm (sortDesc l) l := by
  induction l with
  | nil => exact List.Perm.refl _
  | cons x xs ih =>
    exact (insertDesc_perm x (sortDesc xs)).trans (ih.cons x)

theorem mem_sortDesc {a : UserRow} {l : List UserRow} :
    a ∈ sortDesc l ↔ a ∈ l :=
  (sortDesc_perm l).mem_iff

theorem pairwise_insertDesc {r : UserRow} {l : List UserRow}
    (h : List.Pairwise (fun a b => b.created_at ≤ a.created_at) l) :
    List.Pairwise (fun a b => b.created_at ≤ a.created_at) (insertDesc r l) := by
  induction l with
  | nil => simp [insertDesc]
  | cons x xs ih =>
    rcases List.pairwise_cons.mp h with ⟨hx, hxs⟩
    simp only [insertDesc]
    split
    · rename_i hle
      refine List.pairwise_cons.mpr ⟨?_, h⟩
      intro b hb
      rcases List.mem_cons.mp hb with rfl | hb'
      · exact hle
      · exact (hx b hb').trans hle
    · rename_i hgt
      refine List.pairwise_cons.mpr ⟨?_, ih hxs⟩
      intro b hb
      rcases mem_insertDesc.mp hb with rfl | hb'
      · omega
      · exact hx b hb'

theorem sortDesc_pairwise (l : List UserRow) :
    List.Pairwise (fun a b => b.created_at ≤ a.created_at) (sortDesc l) := by
  induction l with
  | nil => simp [sortDesc]
  | cons x xs ih => exact pairwise_insertDesc ih

theorem beginsWith_nil (t : List Char) : beginsWith t [] = true := by
  cases t <;> rfl

theorem containsSub_nil (t : List Char) : containsSub t [] = true := by
  rw [containsSub.eq_def, beginsWith_nil]
  simp

theorem sqlLike_percent (t : List Char) : sqlLike ['%'] t = true := by
  induction t with
  | nil => rw [sqlLike.eq_def]; simp [sqlLike]
  | cons c t ih =>
    rw [sqlLike.eq_def]
    simp [ih]

theorem sqlLike_wildfree_percent {s : List Char} (hs : noWildL s = true) (t : List Char) :
    sqlLike (s ++ ['%']) t = beginsWith t s := by
  induction s generalizing t with
  | nil => simp [sqlLike_percent, beginsWith_nil]
  | cons c s ih =>
    simp only [noWildL, List.all_cons, Bool.and_eq_true, bne_iff_ne] at hs
    obtain ⟨⟨hc1, hc2⟩, hs'⟩ := hs
    rw [List.cons_append, sqlLike.eq_def]
    simp only [if_neg hc1]
    cases t with
    | nil => rfl
    | cons d t' =>
      simp only [if_neg hc2, beginsWith, ih hs' t']

theorem sqlLike_containsSub {s : List Char} (hs : noWildL s = true) (t : List Char) :
    sqlLike ('%' :: (s ++ ['%'])) t = containsSub t s := by
  induction t with
  | nil =>
    rw [sqlLike.eq_def, containsSub]
    simp [sqlLike_wildfree_percent hs, beginsWith]
  | cons c t ih =>
    rw [sqlLike.eq_def, containsSub]
    simp [sqlLike_wildfree_percent hs, ih]

theorem charOfNat_toNat {n : Nat} (h : n < 55296) : (Char.ofNat n).toNat = n := by
  unfold Char.ofNat
  split
  · rfl
  · rename_i hv
    exact absurd (Or.inl h) hv

theorem toLower_wild {c : Char} (h1 : c ≠ '%') (h2 : c ≠ '_') :
    c.toLower ≠ '%' ∧ c.toLower ≠ '_' := by
  have h37 : ('%' : Char).toNat = 37 := by decide
  have h95 : ('_' : Char).toNat = 95 := by decide
  unfold Char.toLower
  simp only []
  by_cases hr : c.toNat ≥ 65 ∧ c.toNat ≤ 90
  · rw [if_pos hr]
    constructor
    · intro he
      have hx := congrArg Char.toNat he
      rw [charOfNat_toNat (by omega), h37] at hx
      omega
    · intro he
      have hx := congrArg Char.toNat he
      rw [charOfNat_toNat (by omega), h95] at hx
      omega
  · rw [if_neg hr]
    exact ⟨h1, h2⟩

theorem noWildL_lowerChars {s : String} (h : noWild s = true) :
    noWildL (lowerChars s) = true := by
  simp only [noWild, List.all_eq_true, Bool.and_eq_true, bne_iff_ne] at h
  simp only [noWildL, lowerChars, List.all_eq_true, List.mem_map]
  rintro c ⟨d, hd, rfl⟩
  obtain ⟨h1, h2⟩ := toLower_wild (h d hd).1 (h d hd).2
  simp [h1, h2]

theorem createUser_success {s : Session} (h : isAdminSession s = true)
    {d : CreateData} (newId : String) (now : Nat) {db : DB}
    (hfresh : db.any (fun r => r.email == d.email) = false) :
    createUser s d newId now db =
      ({ user := some (newUserRow d newId now), error := none },
       db ++ [newUserRow d newId now]) := by
  simp [createUser, requireRole_admin_ok h, hfresh]

theorem roleCond_iff (roleArg : Option UserRole) (u : UserRow) :
    (match roleArg with
     | some ρ => u.role == ρ
     | none => true) = true ↔ (∀ ρ, roleArg = some ρ → u.role = ρ) := by
  cases roleArg <;> simp

theorem likeOpt_some_eq {str : String} (hnw : noWild str = true) (t : String) :
    likeOpt (likePattern str) (some t) =
      containsSub (lowerChars t) (lowerChars str) := by
  simp only [likeOpt, likePattern]
  exact sqlLike_containsSub (noWildL_lowerChars hnw) (lowerChars t)

theorem searchCond_iff (searchArg : Option String)
    (hw : ∀ str, searchArg = some str → noWild str = true) (u : UserRow) :
    (match truthyStr searchArg with
     | some srch =>
       let p := likePattern srch
       likeOpt p (some u.full_name) || likeOpt p (some u.email) ||
         likeOpt p u.university_id
     | none => true) = true ↔
      (∀ str, searchArg = some str →
        (containsSub (lowerChars u.full_name) (lowerChars str) = true ∨
         containsSub (lowerChars u.email) (lowerChars str) = true ∨
         ∃ uid, u.university_id = some uid ∧
           containsSub (lowerChars uid) (lowerChars str) = true)) := by
  cases searchArg with
  | none => simp [truthyStr]
  | some str =>
    have hnw := hw str rfl
    simp only [Option.some.injEq, forall_eq']
    by_cases hemp : str.isEmpty = true
    · have hstr : str = "" := (String.isEmpty_iff str).mp hemp
      subst hstr
      have hfn : containsSub (lowerChars u.full_name) (lowerChars "") = true := by
        simpa [lowerChars] using containsSub_nil (lowerChars u.full_name)
      simp [truthyStr, hemp, hfn]
    · simp only [truthyStr, hemp, Bool.false_eq_true, if_false, if_neg]
      cases huni : u.university_id with
      | none =>
        simp [likeOpt, huni, likePattern,
          sqlLike_containsSub (noWildL_lowerChars hnw)]
      | some uid =>
        simp only [likeOpt, huni, likePattern, List.cons_append,
          sqlLike_containsSub (noWildL_lowerChars hnw), Bool.or_eq_true,
          Option.some.injEq]
        constructor
        · rintro ((h | h) | h)
          · exact Or.inl h
          · exact Or.inr (Or.inl h)
          · exact Or.inr (Or.inr ⟨uid, rfl, h⟩)
        · rintro (h | h | ⟨uid', huid, h⟩)
          · exact Or.inl (Or.inl h)
          · exact Or.inl (Or.inr h)
          · cases huid
            exact Or.inr h

theorem rowMatches_iff (roleArg : Option UserRole) (searchArg : Option String)
    (hw : ∀ str, searchArg = some str → noWild str = true) (u : UserRow) :
    rowMatches roleArg searchArg u = true ↔
      (u.status ≠ .inactive ∧
       (∀ ρ, roleArg = some ρ → u.role = ρ) ∧
       (∀ str, searchArg = some str →
         (containsSub (lowerChars u.full_name) (lowerChars str) = true ∨
          containsSub (lowerChars u.email) (lowerChars str) = true ∨
          ∃ uid, u.university_id = some uid ∧
            containsSub (lowerChars uid) (lowerChars str) = true))) := by
  unfold rowMatches
  rw [Bool.and_eq_true, Bool.and_eq_true]
  rw [roleCond_iff roleArg u, searchCond_iff searchArg hw u]
  rw [bne_iff_ne]
  tauto

/-! ### Claim theorems -/

/-- C1: for every caller whose session is absent or whose role is not admin,
each admin-only operation (`getUsers`, `createUser`, `updateUser`,
`updateUserRole`, `updateUserStatus`, and `deleteUser` in both its hard- and
soft-delete variants) fails the role gate before performing any database read
or write: the user table comes back unchanged and no entity data is
returned.  `getUsers` propagates the Unauthorized error; the try/catch
operations return their error shape with no entity. -/
theorem C1_role_gate_blocks_non_admins (s : Session) (h : isAdminSession s = false)
    (db : DB) (roleArg : Option UserRole) (searchArg : Option String)
    (cd : CreateData) (newId : String) (now : Nat) (i : String) (ud : UpdateData)
    (ρ : UserRole) (st : UserStatus) :
    getUsers s roleArg searchArg db = .error .unauthorized ∧
    createUser s cd newId now db =
      ({ user := none, error := some "Failed to create user" }, db) ∧
    updateUser s i ud db =
      ({ user := none, error := some "Failed to update user" }, db) ∧
    updateUserRole s i ρ db = ({ error := some "Failed to update role" }, db) ∧
    updateUserStatus s i st db = ({ error := some "Failed to update status" }, db) ∧
    V1.deleteUser s i db = ({ error := some "Failed to delete user" }, db) ∧
    V2.deleteUser s i db = ({ error := some "Failed to delete user" }, db) := by
  have hr := requireRole_admin_fail h
  refine ⟨?_, ?_, ?_, ?_, ?_, ?_, ?_⟩ <;>
    simp [getUsers, createUser, updateUser, updateUserRole, updateUserStatus,
      V1.deleteUser, V2.deleteUser, hr]

/-- Concrete instance of the C1 gate theorem: a student session is rejected by
the list and create operations without touching the one-row table. -/
theorem C1_role_gate_blocks_non_admins_witness :
    isAdminSession sStudent = false ∧
    getUsers sStudent none none [aliceRow] = .error .unauthorized ∧
    createUser sStudent carolData "u-carol" 10 [aliceRow] =
      ({ user := none, error := some "Failed to create user" }, [aliceRow]) ∧
    V1.deleteUser sStudent "u-alice" [aliceRow] =
      ({ error := some "Failed to delete user" }, [aliceRow]) :=
  ⟨by decide,
   (C1_role_gate_blocks_non_admins sStudent (by decide) [aliceRow] none none
      carolData "u-carol" 10 "u-alice" {} .admin .active).1,
   (C1_role_gate_blocks_non_admins sStudent (by decide) [aliceRow] none none
      carolData "u-carol" 10 "u-alice" {} .admin .active).2.1,
   (C1_role_gate_blocks_non_admins sStudent (by decide) [aliceRow] none none
      carolData "u-carol" 10 "u-alice" {} .admin .active).2.2.2.2.2.1⟩

/-- C8: calling `updateUser` with a payload in which every field is undefined
(in particular the empty object) performs no database write and returns no
entity; for an admin caller the result is exactly
`{ user: null, error: "No updates provided" }`. -/
theorem C8_empty_update_rejected (s : Session) (i : String) (d : UpdateData)
    (hd : hasUpdates d = false) (db : DB) :
    (updateUser s i d db).2 = db ∧
    (updateUser s i d db).1.user = none ∧
    (isAdminSession s = true →
      updateUser s i d db =
        ({ user := none, error := some "No updates provided" }, db)) := by
  by_cases ha : isAdminSession s = true
  · simp [updateUser, requireRole_admin_ok ha, hd]
  · have hr := requireRole_admin_fail (by simpa using ha)
    simp [updateUser, hr, ha]

/-- Concrete instance of the C8 theorem: the empty payload on a one-row table
under an admin session. -/
theorem C8_empty_update_rejected_witness :
    hasUpdates {} = false ∧
    updateUser sAdmin "u-alice" {} [aliceRow] =
      ({ user := none, error := some "No updates provided" }, [aliceRow]) :=
  ⟨by decide,
   (C8_empty_update_rejected sAdmin "u-alice" {} (by decide) [aliceRow]).2.2 (by decide)⟩

/-- C9: `getUserById` and `getUserStats` perform no session lookup and no role
check: their results do not depend on the request session (including the
absent session), `getUserById` returns the stored record for the id whatever
its status (soft-deleted rows included), and `getUserStats` returns the
aggregate counts over the users table (over all rows in the hard-delete
variant; over non-inactive rows in the soft-delete variant). -/
theorem C9_ungated_reads (s : Session) (i : String) (db : DB) :
    getUserById s i db = getUserById none i db ∧
    V1.getUserStats s db = V1.getUserStats none db ∧
    V2.getUserStats s db = V2.getUserStats none db ∧
    (∀ r, (db.filter (fun x => x.id == i)).head? = some r →
      getUserById s i db = some r) ∧
    (V1.getUserStats s db).total_users = db.length ∧
    (V2.getUserStats s db).total_users =
      (db.filter (fun r => r.status != .inactive)).length := by
  refine ⟨rfl, rfl, rfl, fun r hr => hr, rfl, ?_⟩
  simp [V2.getUserStats, List.countP_eq_length_filter]

/-- Concrete instance of the C9 theorem: with no session at all,
`getUserById` returns a soft-deleted (inactive) record. -/
theorem C9_ungated_reads_witness :
    getUserById none "u-alice" [aliceInactive] = some aliceInactive ∧
    (V1.getUserStats none [aliceInactive]).total_users = 1 :=
  ⟨(C9_ungated_reads none "u-alice" [aliceInactive]).2.2.2.1 aliceInactive (by decide),
   (C9_ungated_reads none "u-alice" [aliceInactive]).2.2.2.2.1⟩

/-- C10: for an id absent from the database, an admin calling
`updateUserRole`, `updateUserStatus`, or `deleteUser` (either variant)
receives `{ error: null }`, and `updateUser` with at least one defined field
returns `error: null` with no user entity; no operation reports Not Found,
and the table is unchanged. -/
theorem C10_absent_id_silent_success (s : Session) (h : isAdminSession s = true)
    (i : String) (db : DB) (habs : ∀ r ∈ db, r.id ≠ i)
    (ρ : UserRole) (st : UserStatus) :
    updateUserRole s i ρ db = ({ error := none }, db) ∧
    updateUserStatus s i st db = ({ error := none }, db) ∧
    V1.deleteUser s i db = ({ error := none }, db) ∧
    V2.deleteUser s i db = ({ error := none }, db) ∧
    ∀ d : UpdateData, hasUpdates d = true →
      updateUser s i d db = ({ user := none, error := none }, db) := by
  have hok := requireRole_admin_ok h
  refine ⟨?_, ?_, ?_, ?_, ?_⟩
  · simp [updateUserRole, hok, map_guard_id_prop habs]
  · simp [updateUserStatus, hok, map_guard_id_prop habs]
  · have hf : db.filter (fun r => r.id != i) = db :=
      List.filter_eq_self.mpr fun a ha => by simpa using habs a ha
    simp [V1.deleteUser, hok, hf]
  · simp [V2.deleteUser, hok, map_guard_id_prop habs]
  · intro d hd
    have hf : db.filter (fun r => r.id == i) = [] :=
      List.filter_eq_nil_iff.mpr fun a ha => by simpa using habs a ha
    simp [updateUser, hok, hd, map_guard_id_prop habs, hf]

/-- C3, evaluated at the failing input: in `src/lib/actions/user-actions.ts`
the SQL text assembled by `getUsers` changes when only the untrusted search
value changes (and likewise for the role argument), because the values are
concatenated into the query string and `sql.unsafe(query)` is called with no
parameter list; the two-run property of the claim fails there.  By contrast
the parameterized variant (`src/unnamed/part_001`) produces identical SQL
text for the two runs, with the values only in the positional parameter
list. -/
theorem C3_sql_text_depends_on_input :
    V1.getUsersQuery none (some "a") ≠ V1.getUsersQuery none (some "b") ∧
    V1.getUsersQuery (some .student) none ≠ V1.getUsersQuery (some .faculty) none ∧
    (V2.getUsersQuery none (some "a")).1 = (V2.getUsersQuery none (some "b")).1 ∧
    (V2.getUsersQuery none (some "a")).2 ≠ (V2.getUsersQuery none (some "b")).2 := by
  refine ⟨by decide, by decide, by decide, by decide⟩

/-- C4 counterexample: with a non-admin session the Unauthorized failure of
the role gate does not propagate out of `createUser`; the surrounding
try/catch converts it into the `{ user: null, error: message }` return value,
contradicting the claim that the Auth Gate failure escapes the operation. -/
theorem C4_counterexample :
    createUser sStudent carolData "u-carol" 10 [] =
      ({ user := none, error := some "Failed to create user" }, []) := by
  decide

/-- C4 (amended): every try/catch-wrapped operation returns its
`{ entity | null, error | null }` shape even when the role check fails — the
Unauthorized error is caught and converted into a `{ null, message }` value —
and only `getUsers`, whose body has no try/catch, lets the Unauthorized error
propagate to the caller. -/
theorem C4_gate_error_is_caught_except_getUsers (s : Session)
    (h : isAdminSession s = false) (db : DB) (cd : CreateData) (newId : String)
    (now : Nat) (i : String) (ud : UpdateData) (ρ : UserRole) (st : UserStatus)
    (roleArg : Option UserRole) (searchArg : Option String) :
    (∃ msg, (createUser s cd newId now db).1 = { user := none, error := some msg }) ∧
    (∃ msg, (updateUser s i ud db).1 = { user := none, error := some msg }) ∧
    (∃ msg, (updateUserRole s i ρ db).1 = { error := some msg }) ∧
    (∃ msg, (updateUserStatus s i st db).1 = { error := some msg }) ∧
    (∃ msg, (V1.deleteUser s i db).1 = { error := some msg }) ∧
    (∃ msg, (V2.deleteUser s i db).1 = { error := some msg }) ∧
    getUsers s roleArg searchArg db = .error .unauthorized := by
  have hr := requireRole_admin_fail h
  exact ⟨⟨"Failed to create user", by simp [createUser, hr]⟩,
    ⟨"Failed to update user", by simp [updateUser, hr]⟩,
    ⟨"Failed to update role", by simp [updateUserRole, hr]⟩,
    ⟨"Failed to update status", by simp [updateUserStatus, hr]⟩,
    ⟨"Failed to delete user", by simp [V1.deleteUser, hr]⟩,
    ⟨"Failed to delete user", by simp [V2.deleteUser, hr]⟩,
    by simp [getUsers, hr]⟩

/-- Concrete instance of the amended C4 theorem at a student session. -/
theorem C4_gate_error_is_caught_except_getUsers_witness :
    isAdminSession sStudent = false ∧
    (∃ msg, (updateUserRole sStudent "u-alice" .admin [aliceRow]).1 =
      { error := some msg }) ∧
    getUsers sStudent none none [aliceRow] = .error .unauthorized :=
  ⟨by decide,
   (C4_gate_error_is_caught_except_getUsers sStudent (by decide) [aliceRow]
      carolData "u-carol" 10 "u-alice" {} .admin .active none none).2.2.1,
   (C4_gate_error_is_caught_except_getUsers sStudent (by decide) [aliceRow]
      carolData "u-carol" 10 "u-alice" {} .admin .active none none).2.2.2.2.2.2⟩

/-- C2: in the soft-delete variant, for a user id present in the database
(and not already inactive), after `deleteUser(id)` succeeds the target row's
status is `inactive`, `getUsers` with any role/search arguments never
includes the id, `getUserStats().total_users` is exactly one less than
before, and `getUserById(id)` still returns the record. -/
theorem C2_soft_delete_semantics (s : Session) (h : isAdminSession s = true)
    (l1 l2 : List UserRow) (r : UserRow) (i : String)
    (hid : r.id = i) (hact : r.status ≠ .inactive)
    (h1 : ∀ x ∈ l1, x.id ≠ i) (h2 : ∀ x ∈ l2, x.id ≠ i) :
    (V2.deleteUser s i (l1 ++ r :: l2)).1 = { error := none } ∧
    (V2.deleteUser s i (l1 ++ r :: l2)).2 =
      l1 ++ { r with status := .inactive } :: l2 ∧
    (∀ roleArg searchArg, ∃ xs,
      getUsers s roleArg searchArg (V2.deleteUser s i (l1 ++ r :: l2)).2 = .ok xs ∧
      ∀ u ∈ xs, u.id ≠ i) ∧
    (V2.getUserStats s (V2.deleteUser s i (l1 ++ r :: l2)).2).total_users + 1 =
      (V2.getUserStats s (l1 ++ r :: l2)).total_users ∧
    getUserById s i (V2.deleteUser s i (l1 ++ r :: l2)).2 =
      some { r with status := .inactive } := by
  have hok := requireRole_admin_ok h
  have hmid : (r.id == i) = true := by simp [hid]
  have hdel : V2.deleteUser s i (l1 ++ r :: l2) =
      ({ error := none }, l1 ++ { r with status := .inactive } :: l2) := by
    simp only [V2.deleteUser, hok]
    rw [List.map_append, List.map_cons, map_guard_id h1, map_guard_id h2,
      if_pos hmid]
  refine ⟨by rw [hdel], by rw [hdel], ?_, ?_, ?_⟩
  · intro roleArg searchArg
    rw [hdel]
    simp only [getUsers, hok]
    refine ⟨_, rfl, ?_⟩
    intro u hu
    obtain ⟨hmem, hp⟩ := List.mem_filter.mp (mem_sortDesc.mp hu)
    rcases List.mem_append.mp hmem with hL | hR
    · exact h1 u hL
    · rcases List.mem_cons.mp hR with rfl | hR'
      · simp [rowMatches] at hp
      · exact h2 u hR'
  · rw [hdel]
    simp only [V2.getUserStats, List.countP_append, List.countP_cons]
    have hr1 : (({ r with status := .inactive } : UserRow).status != .inactive) = false := by
      simp
    have hr2 : (r.status != .inactive) = true := by simpa using hact
    rw [hr1, hr2]
    simp
    all_goals omega
  · rw [hdel]
    have hf1 : l1.filter (fun x => x.id == i) = [] :=
      List.filter_eq_nil_iff.mpr fun a ha => by simpa using h1 a ha
    simp [getUserById, List.filter_append, hf1, List.filter_cons, hmid]

/-- Concrete instance of the C2 theorem: soft-deleting alice from the
two-row table hides her from the listing, decrements `total_users`, and
keeps her reachable by id. -/
theorem C2_soft_delete_semantics_witness :
    aliceRow.status ≠ .inactive ∧
    (V2.deleteUser sAdmin "u-alice" [aliceRow, bobRow]).2 =
      [aliceInactive, bobRow] ∧
    (∃ xs, getUsers sAdmin none (some "ALICE")
        (V2.deleteUser sAdmin "u-alice" [aliceRow, bobRow]).2 = .ok xs ∧
      ∀ u ∈ xs, u.id ≠ "u-alice") ∧
    (V2.getUserStats sAdmin
        (V2.deleteUser sAdmin "u-alice" [aliceRow, bobRow]).2).total_users + 1 =
      (V2.getUserStats sAdmin [aliceRow, bobRow]).total_users ∧
    getUserById sAdmin "u-alice"
        (V2.deleteUser sAdmin "u-alice" [aliceRow, bobRow]).2 =
      some aliceInactive :=
  ⟨by decide,
   (C2_soft_delete_semantics sAdmin (by decide) [] [bobRow] aliceRow "u-alice"
      (by decide) (by decide) (by decide) (by decide)).2.1,
   (C2_soft_delete_semantics sAdmin (by decide) [] [bobRow] aliceRow "u-alice"
      (by decide) (by decide) (by decide) (by decide)).2.2.1 none (some "ALICE"),
   (C2_soft_delete_semantics sAdmin (by decide) [] [bobRow] aliceRow "u-alice"
      (by decide) (by decide) (by decide) (by decide)).2.2.2.1,
   (C2_soft_delete_semantics sAdmin (by decide) [] [bobRow] aliceRow "u-alice"
      (by decide) (by decide) (by decide) (by decide)).2.2.2.2⟩

/-- C7: for every database state, `getUsers(role?, search?)` (for an
authorized admin caller; wildcard-free search strings) returns exactly the
users whose status is not inactive, restricted by the role argument when
given, and filtered — when a search string is given — by case-insensitive
partial (substring) match on `full_name`, `email`, or `university_id`;
the result is ordered by `created_at` descending. -/
theorem C7_getUsers_filter_search_order (s : Session) (h : isAdminSession s = true)
    (db : DB) (roleArg : Option UserRole) (searchArg : Option String)
    (hw : ∀ str, searchArg = some str → noWild str = true) :
    ∃ xs, getUsers s roleArg searchArg db = .ok xs ∧
      List.Pairwise (fun a b => b.created_at ≤ a.created_at) xs ∧
      ∀ u, u ∈ xs ↔ (u ∈ db ∧ u.status ≠ .inactive ∧
        (∀ ρ, roleArg = some ρ → u.role = ρ) ∧
        (∀ str, searchArg = some str →
          (containsSub (lowerChars u.full_name) (lowerChars str) = true ∨
           containsSub (lowerChars u.email) (lowerChars str) = true ∨
           ∃ uid, u.university_id = some uid ∧
             containsSub (lowerChars uid) (lowerChars str) = true))) := by
  simp only [getUsers, requireRole_admin_ok h]
  refine ⟨_, rfl, sortDesc_pairwise _, fun u => ?_⟩
  rw [mem_sortDesc, List.mem_filter, rowMatches_iff roleArg searchArg hw u]

/-- Concrete instance of the C7 theorem: the uppercase search "ALICE" matches
the user named "alice smith" and not the user named "Bob Cruz"
(case-insensitive partial match). -/
theorem C7_getUsers_filter_search_order_witness :
    noWild "ALICE" = true ∧
    ∃ xs, getUsers sAdmin none (some "ALICE") [aliceRow, bobRow] = .ok xs ∧
      List.Pairwise (fun a b => b.created_at ≤ a.created_at) xs ∧
      aliceRow ∈ xs ∧ bobRow ∉ xs := by
  obtain ⟨xs, hxs, hsort, hiff⟩ :=
    C7_getUsers_filter_search_order sAdmin (by decide) [aliceRow, bobRow]
      none (some "ALICE") (fun str hstr => by cases hstr; decide)
  refine ⟨by decide, xs, hxs, hsort, ?_, ?_⟩
  · refine (hiff aliceRow).mpr ⟨by decide, by decide, ?_, ?_⟩
    · intro ρ hcon
      exact Option.noConfusion hcon
    · intro str hstr
      cases hstr
      exact Or.inl (by decide)
  · intro hbob
    obtain ⟨_, _, _, hsrch⟩ := (hiff bobRow).mp hbob
    rcases hsrch "ALICE" rfl with hc | hc | ⟨uid, huid, _⟩
    · exact absurd hc (by decide)
    · exact absurd hc (by decide)
    · rw [show bobRow.university_id = none from rfl] at huid
      exact Option.noConfusion huid

/-- C5: email uniqueness.  Under an admin session, `createUser` with an email
that already exists returns `{ user: null, error }` and inserts no row; a user
created with a fresh email cannot be created again (the second call with the
same email fails and writes nothing); `updateCurrentUserProfile` with an
email already held by another user returns `{ user: null, error }` and
performs no write; and `createUser` preserves the invariant that no two
non-deleted rows share an email. -/
theorem C5_email_uniqueness (s : Session) (h : isAdminSession s = true)
    (db : DB) (d : CreateData) (newId : String) (now : Nat) :
    (db.any (fun r => r.email == d.email) = true →
      createUser s d newId now db =
        ({ user := none, error := some "Email already exists" }, db)) ∧
    (∀ (u : SessionUser) (pd : ProfileData) (e : String),
      truthyStr pd.email = some e →
      db.any (fun r => r.email == e && r.id != u.id) = true →
      updateCurrentUserProfile (some u) pd db =
        ({ user := none, error := some "Email already in use" }, db)) ∧
    (db.any (fun r => r.email == d.email) = false →
      ∀ (d' : CreateData), d'.email = d.email → ∀ (newId' : String) (now' : Nat),
        createUser s d' newId' now' (createUser s d newId now db).2 =
          ({ user := none, error := some "Email already exists" },
           (createUser s d newId now db).2)) ∧
    (List.Pairwise
        (fun a b => a.status ≠ .inactive → b.status ≠ .inactive → a.email ≠ b.email) db →
      List.Pairwise
        (fun a b => a.status ≠ .inactive → b.status ≠ .inactive → a.email ≠ b.email)
        (createUser s d newId now db).2) := by
  have hok := requireRole_admin_ok h
  refine ⟨fun hdup => by simp [createUser, hok, hdup], ?_, ?_, ?_⟩
  · intro u pd e he hdup
    simp [updateCurrentUserProfile, he, hdup]
  · intro hfresh d' he newId' now'
    rw [createUser_success h newId now hfresh]
    have hdup' : ((db ++ [newUserRow d newId now]).any
        (fun r => r.email == d'.email)) = true := by
      simp [List.any_append, newUserRow, he]
    simp [createUser, hok, hdup']
  · intro hU
    cases hdup : db.any (fun r => r.email == d.email) with
    | true => simpa [createUser, hok, hdup] using hU
    | false =>
      rw [createUser_success h newId now hdup]
      simp only []
      rw [List.pairwise_append]
      refine ⟨hU, List.pairwise_singleton _ _, ?_⟩
      intro a ha b hb
      simp only [List.mem_singleton] at hb
      subst hb
      intro _ _
      have hne : ¬(a.email == d.email) = true := by
        intro hcon
        have hany : db.any (fun r => r.email == d.email) = true :=
          List.any_eq_true.mpr ⟨a, ha, hcon⟩
        simp [hany] at hdup
      simpa [newUserRow] using hne

/-- Concrete instance of the C5 theorem: creating `carolData` twice fails the
second time and leaves the table as it was after the first creation. -/
theorem C5_email_uniqueness_witness :
    ([bobRow] : DB).any (fun r => r.email == carolData.email) = false ∧
    createUser sAdmin carolData "u-carol2" 11
        (createUser sAdmin carolData "u-carol" 10 [bobRow]).2 =
      ({ user := none, error := some "Email already exists" },
       (createUser sAdmin carolData "u-carol" 10 [bobRow]).2) :=
  ⟨by decide,
   (C5_email_uniqueness sAdmin (by decide) [bobRow] carolData "u-carol" 10).2.2.1
     (by decide) carolData rfl "u-carol2" 11⟩

/-- C6: `updateCurrentUserPassword` succeeds exactly when the hash of the
supplied current password equals the stored digest of the session user's row;
a wrong current password yields an error with the table (in particular the
stored `password_hash`) unchanged; on success the row's digest becomes the
hash of the new password; and `createUser` stores the same hash function's
digest of the initial password. -/
theorem C6_password_verification (u : SessionUser) (db : DB) (row : UserRow)
    (hr : (db.filter (fun r => r.id == u.id)).head? = some row)
    (cur new : String) :
    ((updateCurrentUserPassword (some u) cur new db).1.error = none ↔
      hashPassword cur = row.password_hash) ∧
    (hashPassword cur ≠ row.password_hash →
      updateCurrentUserPassword (some u) cur new db =
        ({ error := some "Current password is incorrect" }, db)) ∧
    (hashPassword cur = row.password_hash →
      updateCurrentUserPassword (some u) cur new db =
        ({ error := none },
         db.map fun r =>
           if r.id == u.id then { r with password_hash := hashPassword new }
           else r)) ∧
    (∀ (s : Session) (cd : CreateData) (newId : String) (now : Nat) (w : UserRow),
      isAdminSession s = true →
      ((createUser s cd newId now db).1).user = some w →
      w.password_hash = hashPassword cd.password) := by
  refine ⟨?_, ?_, ?_, ?_⟩
  · by_cases hb : row.password_hash = hashPassword cur
    · simp [updateCurrentUserPassword, hr, hb]
    · have hbe : (row.password_hash != hashPassword cur) = true := by simpa using hb
      simp only [updateCurrentUserPassword, hr, hbe]
      constructor
      · intro hcon
        simp at hcon
      · intro heq
        exact absurd heq.symm hb
  · intro hne
    have hbe : (row.password_hash != hashPassword cur) = true := by
      simpa using hne.symm
    simp [updateCurrentUserPassword, hr, hbe]
  · intro heq
    have hbe : (row.password_hash != hashPassword cur) = false := by simp [heq]
    simp [updateCurrentUserPassword, hr, hbe]
  · intro s cd newId now w hs hw
    cases hdup : db.any (fun r => r.email == cd.email) with
    | true => simp [createUser, requireRole_admin_ok hs, hdup] at hw
    | false =>
      rw [createUser_success hs newId now hdup] at hw
      simp only [Option.some.injEq] at hw
      subst hw
      rfl

/-- Concrete instance of the C6 theorem: alice changes her password with the
correct current password; a wrong current password is rejected without a
write. -/
theorem C6_password_verification_witness :
    (([aliceRow] : DB).filter (fun r => r.id == "u-alice")).head? = some aliceRow ∧
    updateCurrentUserPassword sAlice "pw-alice" "pw-new" [aliceRow] =
      ({ error := none },
       [{ aliceRow with password_hash := hashPassword "pw-new" }]) ∧
    updateCurrentUserPassword sAlice "pw-wrong" "pw-new" [aliceRow] =
      ({ error := some "Current password is incorrect" }, [aliceRow]) :=
  ⟨by decide,
   by
     have h3 := (C6_password_verification { id := "u-alice", role := .student }
       [aliceRow] aliceRow (by decide) "pw-alice" "pw-new").2.2.1 (by decide)
     simpa [sAlice] using h3,
   by
     have h2 := (C6_password_verification { id := "u-alice", role := .student }
       [aliceRow] aliceRow (by decide) "pw-wrong" "pw-new").2.1 (by decide)
     simpa [sAlice] using h2⟩

/-- Concrete instance of the C10 theorem: mutating an id that is not in the
one-row table silently succeeds and leaves the table unchanged. -/
theorem C10_absent_id_silent_success_witness :
    (∀ r ∈ [aliceRow], r.id ≠ "u-ghost") ∧
    updateUserRole sAdmin "u-ghost" .admin [aliceRow] = ({ error := none }, [aliceRow]) ∧
    V1.deleteUser sAdmin "u-ghost" [aliceRow] = ({ error := none }, [aliceRow]) ∧
    updateUser sAdmin "u-ghost" { full_name := some "Ghost" } [aliceRow] =
      ({ user := none, error := none }, [aliceRow]) :=
  ⟨by decide,
   (C10_absent_id_silent_success sAdmin (by decide) "u-ghost" [aliceRow]
      (by decide) .admin .active).1,
   (C10_absent_id_silent_success sAdmin (by decide) "u-ghost" [aliceRow]
      (by decide) .admin .active).2.2.1,
   (C10_absent_id_silent_success sAdmin (by decide) "u-ghost" [aliceRow]
      (by decide) .admin .active).2.2.2.2 { full_name := some "Ghost" } (by decide)⟩

end LibraLink
